import Mathlib

/-!
# Verification of the mouse-brush batch pipeline (`src/pipeline.py`)

This file gives a shallow embedding, in Lean 4, of the control-flow core of
`pipeline.py`:

* the response validator of `_detect_brush_events` (JSON side/notes checks),
* the highlight-expression builder `_highlight_expr` and the frame styling of
  `_make_visualization`,
* the readiness-poll loop and the retry/backoff loop of `_detect_brush_events`,
* the per-video pipeline `_process_video` with its `finally` cleanup,
* the batch loop of `main` that collects per-video errors.

External collaborators (ffmpeg, the remote detection service, the filesystem,
wall-clock time) are modelled as oracles: sequences of outcomes or boolean
flags supplied as arguments, with time passing only at explicit sleeps.
-/

namespace MouseBrush

/-! ## JSON values as produced by Python json.loads

`json.loads` maps JSON null/true/false/numbers/strings/arrays/objects to
Python None/bool/int-or-float/str/list/dict.  We keep int and float apart
(Python does), and record that Python bool is a subclass of int, which is what
`isinstance(v, int)` sees.  Floats never participate in arithmetic here, so we
carry them as rationals purely as inert payload. -/

inductive JVal where
  | null : JVal
  | bool (b : Bool) : JVal
  | int (n : Int) : JVal
  | float (q : Rat) : JVal
  | str (s : String) : JVal
  | arr (xs : List JVal) : JVal
  | obj (fields : List (String × JVal)) : JVal

/-- Python `v is None` on a json.loads value. -/
def JVal.isNull : JVal → Bool
  | .null => true
  | _ => false

/-- Python `isinstance(v, int)` on a json.loads value: true for ints AND for
booleans, since Python bool is a subclass of int. -/
def JVal.isinstanceInt : JVal → Bool
  | .int _ => true
  | .bool _ => true
  | _ => false

/-- Python `isinstance(v, str)` on a json.loads value. -/
def JVal.isinstanceStr : JVal → Bool
  | .str _ => true
  | _ => false

/-- Python `isinstance(v, list)` on a json.loads value. -/
def JVal.isinstanceList : JVal → Bool
  | .arr _ => true
  | _ => false

/-- A parsed JSON object body: association list with Python-dict key
uniqueness left implicit (lookup takes the first binding). -/
abbrev JObj := List (String × JVal)

/-- Python `data.get(key)` on a dict of json.loads values: the stored value
when the key is present, `None` when absent.  A stored JSON null is also
Python `None`, so absence and null coincide in the result, which is exactly
the code's behavior for the "L"/"R" fields. -/
def pyGet (data : JObj) (key : String) : JVal :=
  match data.lookup key with
  | some v => v
  | none => .null

/-- Python `data.get(key, default)`: the stored value when the key is present
(even if that value is null), the default otherwise. -/
def pyGetD (data : JObj) (key : String) (default : JVal) : JVal :=
  match data.lookup key with
  | some v => v
  | none => default

/-- The check applied by `_detect_brush_events` to a present "L"/"R" value
(pipeline.py lines 274-284): `isinstance(val, list) and len(val) == 2 and
all(isinstance(v, int) for v in val)`. -/
def pySideOk (v : JVal) : Bool :=
  match v with
  | .arr xs => xs.length == 2 && xs.all JVal.isinstanceInt
  | _ => false

/-- The validated result dict built by `_detect_brush_events`: the "L" and
"R" values are kept exactly as the service returned them (null when absent),
and "notes" has been coerced to a string. -/
structure PyDetectResult where
  L : JVal
  R : JVal
  notes : String

/-- The response-shaping and validation tail of `_detect_brush_events`
(pipeline.py lines 267-288), applied to the parsed JSON object `data`:

* `result = {"L": data.get("L"), "R": data.get("R"), "notes": data.get("notes", "")}`
* for each of "L", "R": if the value is not None it must satisfy `pySideOk`,
  else `TypeError` is raised (fatal, after the retry loop, never retried);
* if notes is not a str it is coerced via Python `str(...)`, which we abstract
  as the argument `pyStr` (an external builtin, not code of this repository).

Errors are surfaced as `.error key` naming the offending side. -/
def validateResponse (pyStr : JVal → String) (data : JObj) :
    Except String PyDetectResult :=
  let vL := pyGet data "L"
  let vR := pyGet data "R"
  let vNotes := pyGetD data "notes" (.str "")
  if !vL.isNull && !pySideOk vL then
    .error "L"
  else if !vR.isNull && !pySideOk vR then
    .error "R"
  else
    .ok { L := vL, R := vR,
          notes := match vNotes with
                   | .str s => s
                   | v => pyStr v }

/-- The `required` list of `RESPONSE_SCHEMA` (pipeline.py line 104): the
schema declares all three fields required. -/
def responseSchemaRequired : List String := ["L", "R", "notes"]

/-! ## The highlight expression (`_highlight_expr`, `_make_visualization`)

`_highlight_expr` builds the ffmpeg expression
`between(n,L0,L1) + between(n,R0,R1)` (each term present only when the
corresponding range is), or returns None when both ranges are absent.  We
embed the expression as its list of `between` terms together with the ffmpeg
evaluator: `between(x, lo, hi)` is 1 when lo ≤ x ≤ hi and 0 otherwise, `+` is
numeric addition, and a drawtext `enable=` clause fires when the expression is
nonzero. -/

/-- ffmpeg `between(n, lo, hi)`: 1 iff lo ≤ n ≤ hi (closed interval), else 0. -/
def betweenVal (n lo hi : Int) : Nat :=
  if lo ≤ n ∧ n ≤ hi then 1 else 0

/-- The list of `between(n, start, end)` terms collected by `_highlight_expr`
(pipeline.py lines 165-180): one term per present range, L first, and `none`
when both ranges are absent (the function returns None). -/
def highlightExpr (lRange rRange : Option (Int × Int)) :
    Option (List (Int × Int)) :=
  let parts :=
    (match lRange with | some p => [p] | none => []) ++
    (match rRange with | some p => [p] | none => [])
  if parts.isEmpty then none else some parts

/-- Value of the joined `+`-expression at frame index n. -/
def highlightExprVal (n : Int) (parts : List (Int × Int)) : Nat :=
  (parts.map (fun p => betweenVal n p.1 p.2)).sum

/-- Label color chosen by `_make_visualization` (pipeline.py lines 183-207)
for frame index n: when `_highlight_expr` returned None every frame gets the
plain white label; otherwise the red drawtext pass is enabled exactly when the
expression is nonzero (`enable=hi`) and the white pass exactly when it is zero
(`enable=not(hi)`). -/
def visFrameIsRed (lRange rRange : Option (Int × Int)) (n : Int) : Bool :=
  match highlightExpr lRange rRange with
  | none => false
  | some parts => highlightExprVal n parts > 0

/-! ## The readiness-poll loop of `_detect_brush_events`

Lines 220-230: `deadline = time.time() + 300`, then while the file state is
not "ACTIVE": raise on "FAILED", raise on `time.time() > deadline`, else
sleep 2 and re-fetch the state.  We model time discretely: the only time
progression is the 2-unit sleep, so at entry of iteration i the elapsed time
is 2*i.  `states i` is the state observed at iteration i (`states 0` is the
state of the fresh upload; `states (i+1)` is what the i-th `files.get`
returned). -/

/-- State name of the uploaded file as seen by the poll loop: "ACTIVE",
"FAILED", or anything else (e.g. "PROCESSING"), which keeps the loop waiting. -/
inductive FileState where
  | active : FileState
  | failed : FileState
  | processing : FileState
deriving Repr, DecidableEq

/-- Terminal outcome of the poll loop. -/
inductive PollOutcome where
  | ready : PollOutcome
  | processingFailed : PollOutcome
  | timedOut : PollOutcome
deriving Repr, DecidableEq

/-- The poll loop from iteration i on, returning the outcome together with
the elapsed time (2*i at exit).  The loop re-enters only while the elapsed
time is ≤ 300, so it runs at most 152 iterations. -/
def pollFrom (states : Nat → FileState) (i : Nat) : PollOutcome × Nat :=
  match states i with
  | .active => (.ready, 2 * i)
  | .failed => (.processingFailed, 2 * i)
  | .processing =>
      if h : 2 * i > 300 then (.timedOut, 2 * i)
      else pollFrom states (i + 1)
termination_by 151 - i
decreasing_by omega

/-- The whole poll phase: start at iteration 0 with the upload's own state. -/
def pollLoop (states : Nat → FileState) : PollOutcome × Nat :=
  pollFrom states 0

/-! ## The retry loop of `_detect_brush_events`

Lines 232-254: `max_retries = 5`; `for attempt in range(max_retries)`: try
`generate_content`, break on success; on exception, classify the error text
(`"503"`, `"UNAVAILABLE"`, `"429"`, `"RESOURCE_EXHAUSTED"` substrings), and
if retryable and `attempt < max_retries - 1` sleep `2 ** attempt * 5` and
continue, else re-raise.  `calls attempt` is the outcome of the attempt-th
`generate_content` call (0-based).  A successful call carries the parsed form
of `resp.text`: `none` when the body is not JSON (json.loads raises), `some
data` when it parses to the object `data`. -/

/-- Outcome of one `generate_content` call: success carrying the parsed body,
or an exception carrying its message text. -/
inductive CallOutcome where
  | ok (respBody : Option JObj) : CallOutcome
  | err (msg : String) : CallOutcome

/-- Python `pat in s` on strings: pat occurs as a contiguous substring of s. -/
def strContains (pat s : String) : Bool :=
  decide (pat.data <:+: s.data)

/-- The transient-error classifier (pipeline.py line 248):
`"503" in err_str or "UNAVAILABLE" in err_str or "429" in err_str or
"RESOURCE_EXHAUSTED" in err_str`. -/
def isRetryable (errStr : String) : Bool :=
  strContains "503" errStr ||
  strContains "UNAVAILABLE" errStr ||
  strContains "429" errStr ||
  strContains "RESOURCE_EXHAUSTED" errStr

/-- The retry loop from a given attempt index on.  Returns the final outcome
(the successful response body, or the re-raised error message), the total
time slept inside the loop, and the index one past the last attempt made
(i.e. the number of attempts when started at 0).  The `2 ^ attempt * 5`
backoff (5, 10, 20, 40) is slept only when the error is retryable and
`attempt < maxRetries - 1`. -/
def retryFrom (calls : Nat → CallOutcome) (maxRetries attempt : Nat) :
    Except String (Option JObj) × Nat × Nat :=
  match calls attempt with
  | .ok body => (.ok body, 0, attempt + 1)
  | .err msg =>
      if h : isRetryable msg = true ∧ attempt < maxRetries - 1 then
        let rest := retryFrom calls maxRetries (attempt + 1)
        (rest.1, 2 ^ attempt * 5 + rest.2.1, rest.2.2)
      else
        (.error msg, 0, attempt + 1)
termination_by maxRetries - attempt
decreasing_by omega

/-- The retry phase as run by the code: `max_retries = 5`, starting at
attempt 0. -/
def retryLoop (calls : Nat → CallOutcome) : Except String (Option JObj) × Nat × Nat :=
  retryFrom calls 5 0

/-- Total backoff slept when attempts a, a+1, ..., a+k-1 all fail with a
retryable error: `2^a*5 + 2^(a+1)*5 + ... + 2^(a+k-1)*5`. -/
def backoffSum (a : Nat) : Nat → Nat
  | 0 => 0
  | k + 1 => 2 ^ a * 5 + backoffSum (a + 1) k

/-! ## `_detect_brush_events` composed

The full call (pipeline.py lines 212-288): upload, poll until ACTIVE, retry
loop around `generate_content`, best-effort delete of the uploaded handle,
JSON parse, validation.  Crucially, the delete (lines 256-260) sits AFTER the
retry loop with no enclosing try/finally: when the loop re-raises, the
exception propagates out of the function and the delete is never reached.
The delete is attempted only on the success path, and its own errors are
swallowed by `except Exception: pass`. -/

/-- Classified failure of `_detect_brush_events` (all raised as Python
exceptions by the code; we keep them apart by origin). -/
inductive DetectError where
  | processingFailed : DetectError
  | timedOut : DetectError
  | service (msg : String) : DetectError
  | nonJson : DetectError
  | typeError (key : String) : DetectError

/-- Observable log of one `_detect_brush_events` run: elapsed poll time,
total backoff slept, number of `generate_content` attempts made, and whether
the best-effort `files.delete` was reached (`some b` with `b` the raw delete
outcome — swallowed either way; `none` when the delete was never attempted). -/
structure DetectLog where
  pollElapsed : Nat
  retrySleep : Nat
  attempts : Nat
  deleteAttempted : Option Bool

/-- Environment of one `_detect_brush_events` run: the observed file states,
the `generate_content` outcomes, and whether the `files.delete` call itself
would fail if reached. -/
structure DetectEnv where
  states : Nat → FileState
  calls : Nat → CallOutcome
  deleteFails : Bool

/-- Shallow embedding of `_detect_brush_events` (pipeline.py lines 212-288),
with `pyStr` abstracting Python's builtin `str`. -/
def detectBrushEvents (pyStr : JVal → String) (env : DetectEnv) :
    Except DetectError PyDetectResult × DetectLog :=
  let poll := pollLoop env.states
  match poll.1 with
  | .processingFailed =>
      (.error .processingFailed,
       ⟨poll.2, 0, 0, none⟩)
  | .timedOut =>
      (.error .timedOut,
       ⟨poll.2, 0, 0, none⟩)
  | .ready =>
      let retry := retryLoop env.calls
      match retry.1 with
      | .error msg =>
          -- the raise propagates: files.delete is never reached
          (.error (.service msg),
           ⟨poll.2, retry.2.1, retry.2.2, none⟩)
      | .ok body =>
          -- best-effort delete: attempted, outcome swallowed
          let log : DetectLog := ⟨poll.2, retry.2.1, retry.2.2, some env.deleteFails⟩
          match body with
          | none => (.error .nonJson, log)
          | some data =>
              match validateResponse pyStr data with
              | .error key => (.error (.typeError key), log)
              | .ok result => (.ok result, log)

/-! ## The per-video pipeline `_process_video`

Lines 293-355.  The job owns five filesystem slots: the original source video,
the normalized intermediate `<stem>_1fps_tmp.mp4`, the labeled intermediate
`<stem>_labeled.mp4`, the visualization output `<stem>_vis.mp4`, and
`result.json`.  Each external step is an oracle: ffmpeg invocations either
succeed (writing their destination) or raise `RuntimeError`, possibly leaving
a partially-written destination behind (`ffmpeg -y` opens the output before
transcoding); the detection call either returns a validated result dict or
raises.  The `try`/`finally` structure deletes `tmp_1fps` and `labeled_mp4`
at exit whenever they exist.  We also record an event trace to state ordering
properties (persist-before-visualize). -/

/-- Outcome of one ffmpeg invocation: success, or a raised error with a flag
telling whether a (partial) destination file was left behind. -/
inductive FfmpegOutcome where
  | ok : FfmpegOutcome
  | fails (dstWritten : Bool) : FfmpegOutcome
deriving Repr, DecidableEq

/-- Oracle outcomes for the external steps of one `_process_video` job. -/
structure JobEnv where
  /-- `_get_orig_fps` (ffprobe + Fraction parse) succeeds. -/
  probeOk : Bool
  /-- `orig_fps == 1.0`: the fast path that skips `_make_1fps`. -/
  origFpsIs1 : Bool
  /-- outcome of `_make_1fps` (only consulted on the slow path). -/
  conv : FfmpegOutcome
  /-- outcome of `_make_labeled`. -/
  labelStep : FfmpegOutcome
  /-- outcome of `_detect_brush_events`: result dict, or raised message. -/
  detect : Except String PyDetectResult
  /-- outcome of `_make_visualization` (only consulted when visualizing). -/
  vis : FfmpegOutcome

/-- Filesystem slots owned by one video job. -/
structure JobFS where
  source : Bool
  tmp1fps : Bool
  labeled : Bool
  vis : Bool
  resultJson : Option (PyDetectResult × String)

/-- Events of one job run, in execution order. -/
inductive JobEv where
  | probe : JobEv
  | convert1fps : JobEv
  | burnLabels : JobEv
  | detectCall : JobEv
  | writeResult : JobEv
  | visualizeCall : JobEv
  | unlinkTmp : JobEv
  | unlinkLabeled : JobEv
deriving Repr, DecidableEq

/-- The `try` body of `_process_video` (pipeline.py lines 314-348): probe the
frame rate, convert to 1 fps unless already there, burn labels, detect, write
`result.json`, then optionally visualize.  Returns the body's outcome, the
filesystem after the body, and the event trace. -/
def processVideoBody (env : JobEnv) (visualize : Bool) (videoName : String)
    (fs : JobFS) : Except String Unit × JobFS × List JobEv :=
  -- Step 1 — _get_orig_fps, then convert to 1 FPS if needed
  if !env.probeOk then (.error "ffprobe", fs, [.probe])
  else
    let afterConv : Except String Unit × JobFS × List JobEv :=
      if env.origFpsIs1 then
        -- fast path: src_1fps := the source itself, no intermediate created
        (.ok (), fs, [.probe])
      else
        match env.conv with
        | .ok => (.ok (), { fs with tmp1fps := true }, [.probe, .convert1fps])
        | .fails w => (.error "ffmpeg 1fps", { fs with tmp1fps := w },
                       [.probe, .convert1fps])
    match afterConv with
    | (.error m, fs1, tr) => (.error m, fs1, tr)
    | (.ok _, fs1, tr) =>
      -- Step 2 — _make_labeled
      match env.labelStep with
      | .fails w => (.error "ffmpeg label", { fs1 with labeled := w },
                     tr ++ [.burnLabels])
      | .ok =>
        let fs2 := { fs1 with labeled := true }
        let tr2 := tr ++ [.burnLabels]
        -- Step 3 — _detect_brush_events
        match env.detect with
        | .error m => (.error m, fs2, tr2 ++ [.detectCall])
        | .ok result =>
          -- Save JSON: result["video"] = video name, then write result.json
          let fs3 := { fs2 with resultJson := some (result, videoName) }
          let tr3 := tr2 ++ [.detectCall, .writeResult]
          -- Optional visualization
          if visualize then
            match env.vis with
            | .ok => (.ok (), { fs3 with vis := true }, tr3 ++ [.visualizeCall])
            | .fails w => (.error "ffmpeg vis", { fs3 with vis := w },
                           tr3 ++ [.visualizeCall])
          else
            (.ok (), fs3, tr3)

/-- The `finally` block (pipeline.py lines 350-355): unlink `tmp_1fps` and
`labeled_mp4` whenever they exist.  The paths are fixed names under the
output subdirectory, distinct from the source video, which is never touched. -/
def cleanupIntermediates (fs : JobFS) (tr : List JobEv) : JobFS × List JobEv :=
  let step1 :=
    if fs.tmp1fps then ({ fs with tmp1fps := false }, tr ++ [.unlinkTmp])
    else (fs, tr)
  if step1.1.labeled then
    ({ step1.1 with labeled := false }, step1.2 ++ [.unlinkLabeled])
  else step1

/-- `_process_video` in full: run the body, then unconditionally run the
cleanup, and surface the body's outcome. -/
def processVideo (env : JobEnv) (visualize : Bool) (videoName : String)
    (fs : JobFS) : Except String Unit × JobFS × List JobEv :=
  let body := processVideoBody env visualize videoName fs
  let cleaned := cleanupIntermediates body.2.1 body.2.2
  (body.1, cleaned.1, cleaned.2)

/-! ## The batch loop of `main`

Lines 420-449: every discovered video is submitted; each finished job is
unwrapped in a `try`/`except` that appends `f"{video_path.name}: {exc}"` to
the error list and continues, so one failure never aborts or skips the
remaining jobs.  The summary prints `n_ok = len(videos) - len(errors)`.
Completion order under the thread pool is scheduler-dependent; the model
collects outcomes in submission order, which fixes one admissible order. -/

/-- One discovered video: its file name and its job's oracle outcomes. -/
structure VideoSpec where
  name : String
  env : JobEnv

/-- Filesystem at job start: the source exists, nothing else does. -/
def initFS : JobFS :=
  { source := true, tmp1fps := false, labeled := false, vis := false,
    resultJson := none }

/-- Run one video's job from the initial filesystem. -/
def runJob (visualize : Bool) (v : VideoSpec) :
    Except String Unit × JobFS × List JobEv :=
  processVideo v.env visualize v.name initFS

/-- The per-future unwrap loop: every job is run; raising jobs contribute
`name: message` to the error list and the loop continues with the rest. -/
def collectErrors (visualize : Bool) : List VideoSpec → List String
  | [] => []
  | v :: rest =>
      match (runJob visualize v).1 with
      | .error m => (v.name ++ ": " ++ m) :: collectErrors visualize rest
      | .ok _ => collectErrors visualize rest

/-- The final summary of `main` (lines 441-449). -/
structure Summary where
  total : Nat
  succeeded : Nat
  errors : List String

/-- The batch: run every job, collect errors without aborting, and report
`succeeded = total - number of errors` plus each job's final filesystem. -/
def runBatch (visualize : Bool) (vs : List VideoSpec) :
    Summary × List (String × JobFS) :=
  let errors := collectErrors visualize vs
  (⟨vs.length, vs.length - errors.length, errors⟩,
   vs.map fun v => (v.name, (runJob visualize v).2.1))

/-! ## Spec-side predicates and concrete inputs used by the theorems -/

/-- Whether an Except value is a success. -/
def exceptIsOk {ε α : Type} : Except ε α → Bool
  | .ok _ => true
  | .error _ => false

/-- The spec's words for a valid present side: "exactly a 2-element integer
array".  This is the specification-side shape, written from the spec, to be
compared with the code-side check `pySideOk`: it admits JSON integers only,
whereas Python's `isinstance(v, int)` also admits booleans. -/
def specIntRangeShape : JVal → Bool
  | .arr [.int _, .int _] => true
  | _ => false

/-- Whether a side value, when it is a 2-integer range, satisfies the spec's
`start ≤ end` ordering (vacuously true for any other shape). -/
def sideOrdered : JVal → Bool
  | .arr [.int a, .int b] => decide (a ≤ b)
  | _ => true

/-- A detection result dict used by the concrete batch runs below. -/
def demoResult : PyDetectResult :=
  { L := .arr [.int 3, .int 5], R := .null, notes := "clean run" }

/-- A job environment where every external step succeeds (slow path: the
source is not at 1 fps). -/
def demoOkEnv : JobEnv :=
  { probeOk := true, origFpsIs1 := false, conv := .ok, labelStep := .ok,
    detect := .ok demoResult, vis := .ok }

/-- A job environment identical to `demoOkEnv` except that the detection call
raises. -/
def demoDetectFailEnv : JobEnv :=
  { demoOkEnv with detect := .error "detect boom" }

/-- A job environment where everything up to persisting succeeds and the
visualization render fails, leaving a partial output file behind. -/
def demoVisFailEnv : JobEnv :=
  { demoOkEnv with vis := .fails true }

/-- The 5-video batch of the spec's example: video #3 always fails at the
Detect stage, the others succeed. -/
def demoBatch : List VideoSpec :=
  [⟨"v1.mp4", demoOkEnv⟩, ⟨"v2.mp4", demoOkEnv⟩,
   ⟨"v3.mp4", demoDetectFailEnv⟩, ⟨"v4.mp4", demoOkEnv⟩,
   ⟨"v5.mp4", demoOkEnv⟩]

/-! # Theorems -/

/-- ffmpeg `between` is positive exactly on the closed interval. -/
theorem betweenVal_pos (n lo hi : Int) :
    0 < betweenVal n lo hi ↔ lo ≤ n ∧ n ≤ hi := by
  unfold betweenVal; split <;> simp_all

/-- C1: the highlight predicate built by the Visualize stage is true for
frame index n iff n lies in the closed interval of the left range (when
present) or of the right range (when present); with both absent the builder
returns the no-highlight expression and every frame is rendered in the
non-highlighted white style.  `HighlightPredicateBuilder.build(Range(1,2),
Range(8,8))` is true exactly for n ∈ {1,2,8}. -/
theorem C1_highlight_predicate :
    (∀ (lR rR : Option (Int × Int)) (n : Int),
      visFrameIsRed lR rR n = true ↔
        (∃ p, lR = some p ∧ p.1 ≤ n ∧ n ≤ p.2) ∨
        (∃ p, rR = some p ∧ p.1 ≤ n ∧ n ≤ p.2)) ∧
    (highlightExpr none none = none ∧
      ∀ n : Int, visFrameIsRed none none n = false) ∧
    (∀ n : Int,
      visFrameIsRed (some (1, 2)) (some (8, 8)) n = true ↔
        n = 1 ∨ n = 2 ∨ n = 8) := by
  refine ⟨fun lR rR n => ?_, ⟨rfl, fun n => rfl⟩, fun n => ?_⟩
  · cases lR <;> cases rR <;>
      simp [visFrameIsRed, highlightExpr, highlightExprVal, add_pos_iff,
        betweenVal_pos]
  · simp [visFrameIsRed, highlightExpr, highlightExprVal, add_pos_iff,
      betweenVal_pos]
    omega

/-! ### Retry-loop lemmas -/

/-- A successful attempt ends the loop: no further sleep, one more attempt. -/
theorem retryFrom_ok (calls : Nat → CallOutcome) (maxR a : Nat)
    (body : Option JObj) (h : calls a = .ok body) :
    retryFrom calls maxR a = (.ok body, 0, a + 1) := by
  rw [retryFrom, h]

/-- A non-retryable error, or an error on the last allowed attempt, is
re-raised at once with no further sleep. -/
theorem retryFrom_fatal (calls : Nat → CallOutcome) (maxR a : Nat) (m : String)
    (h : calls a = .err m) (h2 : ¬(isRetryable m = true ∧ a < maxR - 1)) :
    retryFrom calls maxR a = (.error m, 0, a + 1) := by
  rw [retryFrom, h]; simp [h2]

/-- A retryable error before the last attempt sleeps `2 ^ attempt * 5` and
continues with the next attempt. -/
theorem retryFrom_retry (calls : Nat → CallOutcome) (maxR a : Nat) (m : String)
    (h : calls a = .err m) (h2 : isRetryable m = true) (h3 : a < maxR - 1) :
    retryFrom calls maxR a =
      ((retryFrom calls maxR (a + 1)).1,
       2 ^ a * 5 + (retryFrom calls maxR (a + 1)).2.1,
       (retryFrom calls maxR (a + 1)).2.2) := by
  rw [retryFrom, h]; simp [h2, h3]

/-- Complete characterization of the retry loop started at attempt a ≤ 4 with
`max_retries = 5`: it stops at the first attempt k that either succeeds, or
fails non-retryably, or is the final allowed attempt (k = 4); every earlier
attempt from a on failed retryably, and the accumulated sleep is exactly the
backoff series over those earlier attempts. -/
theorem retryFrom_spec (calls : Nat → CallOutcome) :
    ∀ (fuel a : Nat), 4 - a ≤ fuel → a ≤ 4 →
      ∃ k, a ≤ k ∧ k ≤ 4 ∧
        (∀ j, a ≤ j → j < k → ∃ m, calls j = .err m ∧ isRetryable m = true) ∧
        ((∃ body, calls k = .ok body ∧
            retryFrom calls 5 a = (.ok body, backoffSum a (k - a), k + 1)) ∨
         (∃ m, calls k = .err m ∧ (isRetryable m = false ∨ k = 4) ∧
            retryFrom calls 5 a = (.error m, backoffSum a (k - a), k + 1))) := by
  intro fuel
  induction fuel with
  | zero =>
      intro a hf ha
      have ha4 : a = 4 := by omega
      subst ha4
      refine ⟨4, le_refl _, le_refl _, fun j hj1 hj2 => absurd hj2 (by omega), ?_⟩
      cases h : calls 4 with
      | ok body =>
          exact .inl ⟨body, rfl,
            by rw [retryFrom_ok calls 5 4 body h]; simp [backoffSum]⟩
      | err m =>
          refine .inr ⟨m, rfl, .inr rfl, ?_⟩
          rw [retryFrom_fatal calls 5 4 m h (by omega)]
          simp [backoffSum]
  | succ fuel ih =>
      intro a hf ha
      cases h : calls a with
      | ok body =>
          exact ⟨a, le_refl _, ha, fun j hj1 hj2 => absurd hj2 (by omega),
            .inl ⟨body, h,
              by rw [retryFrom_ok calls 5 a body h]; simp [backoffSum]⟩⟩
      | err m =>
          by_cases hr : isRetryable m = true
          · by_cases ha4 : a < 4
            · obtain ⟨k, hk1, hk2, hprev, hres⟩ := ih (a + 1) (by omega) (by omega)
              refine ⟨k, by omega, hk2, ?_, ?_⟩
              · intro j hj1 hj2
                rcases Nat.eq_or_lt_of_le hj1 with rfl | hlt
                · exact ⟨m, h, hr⟩
                · exact hprev j (by omega) hj2
              · have hstep := retryFrom_retry calls 5 a m h hr (by omega)
                have hka : k - a = (k - (a + 1)) + 1 := by omega
                rcases hres with ⟨body, hc, he⟩ | ⟨m2, hc, hcls, he⟩
                · exact .inl ⟨body, hc, by rw [hstep, he, hka]; simp [backoffSum]⟩
                · exact .inr ⟨m2, hc, hcls, by rw [hstep, he, hka]; simp [backoffSum]⟩
            · have ha4' : a = 4 := by omega
              subst ha4'
              refine ⟨4, le_refl _, le_refl _,
                fun j hj1 hj2 => absurd hj2 (by omega),
                .inr ⟨m, h, .inr rfl, ?_⟩⟩
              rw [retryFrom_fatal calls 5 4 m h (by omega)]
              simp [backoffSum]
          · refine ⟨a, le_refl _, ha, fun j hj1 hj2 => absurd hj2 (by omega),
              .inr ⟨m, h, .inl (by simpa using hr), ?_⟩⟩
            rw [retryFrom_fatal calls 5 a m h (by simp [hr])]
            simp [backoffSum]

/-- C2: the detection client retries `generate_content` only on errors whose
text carries a transient signature (503/UNAVAILABLE/429/RESOURCE_EXHAUSTED),
makes at most 5 attempts, sleeps `2 ^ attempt * 5` between consecutive
attempts (5, 10, 20, 40), and re-raises immediately — with no further sleep —
on any non-transient error or on failure of the fifth attempt.  In
particular, a non-transient error on the first attempt fails with zero
cumulative sleep, and transient failures on attempts 1-3 followed by success
on attempt 4 succeed after cumulative waits of 35 ≥ 5+10+20 time units. -/
theorem C2_retry_backoff :
    (∀ calls : Nat → CallOutcome,
      ∃ k, k ≤ 4 ∧ (retryLoop calls).2.2 = k + 1 ∧
        (∀ j, j < k → ∃ m, calls j = .err m ∧ isRetryable m = true) ∧
        ((∃ body, calls k = .ok body ∧
            retryLoop calls = (.ok body, backoffSum 0 k, k + 1)) ∨
         (∃ m, calls k = .err m ∧ (isRetryable m = false ∨ k = 4) ∧
            retryLoop calls = (.error m, backoffSum 0 k, k + 1)))) ∧
    (retryLoop (fun _ => .err "400 INVALID_ARGUMENT") =
      (.error "400 INVALID_ARGUMENT", 0, 1)) ∧
    ((retryLoop (fun i => if i < 3 then .err "503 Service Unavailable"
        else .ok (some [])) = (.ok (some []), 35, 4)) ∧ 5 + 10 + 20 ≤ 35) ∧
    (retryLoop (fun _ => .err "429 RESOURCE_EXHAUSTED") =
      (.error "429 RESOURCE_EXHAUSTED", 75, 5)) := by
  refine ⟨fun calls => ?_, ?_, ⟨?_, by norm_num⟩, ?_⟩
  · obtain ⟨k, _, hk4, hprev, hres⟩ := retryFrom_spec calls 4 0 (by omega) (by omega)
    have hloop : retryLoop calls = retryFrom calls 5 0 := rfl
    refine ⟨k, hk4, ?_, fun j hj => hprev j (by omega) hj, ?_⟩
    · rcases hres with ⟨body, _, he⟩ | ⟨m, _, _, he⟩ <;>
        simp [hloop, he]
    · rcases hres with ⟨body, hc, he⟩ | ⟨m, hc, hcls, he⟩
      · exact .inl ⟨body, hc, by rw [hloop, he]; simp⟩
      · exact .inr ⟨m, hc, hcls, by rw [hloop, he]; simp⟩
  · have hnr : isRetryable "400 INVALID_ARGUMENT" = false := by decide
    rw [retryLoop, retryFrom_fatal _ 5 0 _ rfl (by simp [hnr])]
  · rw [retryLoop,
      retryFrom_retry _ 5 0 "503 Service Unavailable" rfl (by decide) (by omega),
      retryFrom_retry _ 5 1 "503 Service Unavailable" rfl (by decide) (by omega),
      retryFrom_retry _ 5 2 "503 Service Unavailable" rfl (by decide) (by omega),
      retryFrom_ok _ 5 3 (some []) rfl]
    norm_num
  · rw [retryLoop,
      retryFrom_retry _ 5 0 "429 RESOURCE_EXHAUSTED" rfl (by decide) (by omega),
      retryFrom_retry _ 5 1 "429 RESOURCE_EXHAUSTED" rfl (by decide) (by omega),
      retryFrom_retry _ 5 2 "429 RESOURCE_EXHAUSTED" rfl (by decide) (by omega),
      retryFrom_retry _ 5 3 "429 RESOURCE_EXHAUSTED" rfl (by decide) (by omega),
      retryFrom_fatal _ 5 4 _ rfl (by omega)]
    norm_num

/-! ### Poll-loop lemmas -/

/-- An ACTIVE state ends the poll loop successfully. -/
theorem pollFrom_active (states : Nat → FileState) (i : Nat)
    (h : states i = .active) : pollFrom states i = (.ready, 2 * i) := by
  rw [pollFrom, h]

/-- A FAILED state fails the poll loop immediately. -/
theorem pollFrom_failed (states : Nat → FileState) (i : Nat)
    (h : states i = .failed) : pollFrom states i = (.processingFailed, 2 * i) := by
  rw [pollFrom, h]

/-- Once the elapsed time exceeds the 300-unit deadline, a still-processing
state fails the poll loop with the timeout error. -/
theorem pollFrom_timeout (states : Nat → FileState) (i : Nat)
    (h : states i = .processing) (h2 : 2 * i > 300) :
    pollFrom states i = (.timedOut, 2 * i) := by
  rw [pollFrom, h]; simp [h2]

/-- Within the deadline, a still-processing state sleeps 2 units and polls
again. -/
theorem pollFrom_step (states : Nat → FileState) (i : Nat)
    (h : states i = .processing) (h2 : ¬2 * i > 300) :
    pollFrom states i = pollFrom states (i + 1) := by
  rw [pollFrom, h]; simp [h2]

/-- Complete characterization of the poll loop started at iteration i: it
stops at the first iteration k whose state is ACTIVE or FAILED or whose
elapsed time 2k exceeds the deadline; every earlier iteration from i on saw a
still-processing state within the deadline. -/
theorem pollFrom_spec (states : Nat → FileState) :
    ∀ (fuel i : Nat), 151 - i ≤ fuel →
      ∃ k, i ≤ k ∧
        (∀ j, i ≤ j → j < k → states j = .processing ∧ 2 * j ≤ 300) ∧
        ((states k = .active ∧ pollFrom states i = (.ready, 2 * k)) ∨
         (states k = .failed ∧ pollFrom states i = (.processingFailed, 2 * k)) ∨
         (states k = .processing ∧ 2 * k > 300 ∧
            pollFrom states i = (.timedOut, 2 * k))) := by
  intro fuel
  induction fuel with
  | zero =>
      intro i hf
      refine ⟨i, le_refl _, fun j hj1 hj2 => absurd hj2 (by omega), ?_⟩
      cases h : states i with
      | active => exact .inl ⟨rfl, pollFrom_active states i h⟩
      | failed => exact .inr (.inl ⟨rfl, pollFrom_failed states i h⟩)
      | processing =>
          exact .inr (.inr ⟨rfl, by omega, pollFrom_timeout states i h (by omega)⟩)
  | succ fuel ih =>
      intro i hf
      cases h : states i with
      | active => exact ⟨i, le_refl _, fun j hj1 hj2 => absurd hj2 (by omega),
          .inl ⟨h, pollFrom_active states i h⟩⟩
      | failed => exact ⟨i, le_refl _, fun j hj1 hj2 => absurd hj2 (by omega),
          .inr (.inl ⟨h, pollFrom_failed states i h⟩)⟩
      | processing =>
          by_cases ht : 2 * i > 300
          · exact ⟨i, le_refl _, fun j hj1 hj2 => absurd hj2 (by omega),
              .inr (.inr ⟨h, ht, pollFrom_timeout states i h ht⟩)⟩
          · obtain ⟨k, hk1, hprev, hres⟩ := ih (i + 1) (by omega)
            refine ⟨k, by omega, ?_, ?_⟩
            · intro j hj1 hj2
              rcases Nat.eq_or_lt_of_le hj1 with rfl | hlt
              · exact ⟨h, by omega⟩
              · exact hprev j (by omega) hj2
            · rw [pollFrom_step states i h ht]; exact hres

/-- C3 (amended): the asset-readiness wait polls on a fixed 2-unit interval;
a FAILED state fails it immediately, and once the total wait exceeds the
300-unit deadline it fails with the timeout error.  For every sequence of
reported states the loop terminates — succeeding, failing on FAILED, or
failing on timeout — with total elapsed time at most the deadline plus one
poll interval (302), not within the 300-unit deadline itself. -/
theorem C3_poll_terminates :
    ∀ states : Nat → FileState, ∃ k, k ≤ 151 ∧
      (∀ j, j < k → states j = .processing ∧ 2 * j ≤ 300) ∧
      (pollLoop states).2 = 2 * k ∧ (pollLoop states).2 ≤ 300 + 2 ∧
      ((states k = .active ∧ (pollLoop states).1 = .ready) ∨
       (states k = .failed ∧ (pollLoop states).1 = .processingFailed) ∨
       (states k = .processing ∧ 2 * k > 300 ∧
          (pollLoop states).1 = .timedOut)) := by
  intro states
  obtain ⟨k, _, hprev, hres⟩ := pollFrom_spec states 151 0 (by omega)
  have hloop : pollLoop states = pollFrom states 0 := rfl
  have hk151 : k ≤ 151 := by
    by_contra hgt
    exact absurd (hprev 151 (by omega) (by omega)).2 (by omega)
  refine ⟨k, hk151, fun j hj => hprev j (by omega) hj, ?_, ?_, ?_⟩
  · rcases hres with ⟨_, he⟩ | ⟨_, he⟩ | ⟨_, _, he⟩ <;> simp [hloop, he]
  · rcases hres with ⟨_, he⟩ | ⟨_, he⟩ | ⟨_, _, he⟩ <;> simp [hloop, he] <;> omega
  · rcases hres with ⟨hc, he⟩ | ⟨hc, he⟩ | ⟨hc, h2k, he⟩
    · exact .inl ⟨hc, by simp [hloop, he]⟩
    · exact .inr (.inl ⟨hc, by simp [hloop, he]⟩)
    · exact .inr (.inr ⟨hc, h2k, by simp [hloop, he]⟩)

/-- C3 counterexample: with a file that never leaves the processing state the
poll loop terminates only after a total wait of 302 time-units, which exceeds
the 300-unit deadline — so the loop does not terminate "within the deadline"
as the claim states. -/
theorem C3_poll_counterexample :
    pollLoop (fun _ => FileState.processing) = (.timedOut, 302) ∧
    ¬((pollLoop (fun _ => FileState.processing)).2 ≤ 300) := by
  obtain ⟨k, _, hprev, hres⟩ :=
    pollFrom_spec (fun _ => FileState.processing) 151 0 (by omega)
  rcases hres with ⟨hc, _⟩ | ⟨hc, _⟩ | ⟨_, h2k, he⟩
  · exact absurd hc (by simp)
  · exact absurd hc (by simp)
  · have hk : k = 151 := by
      have hle : k ≤ 151 := by
        by_contra hgt
        exact absurd (hprev 151 (by omega) (by omega)).2 (by omega)
      omega
    subst hk
    have hloop : pollLoop (fun _ => FileState.processing) =
        pollFrom (fun _ => FileState.processing) 0 := rfl
    rw [hloop, he]
    norm_num

/-! ### Validator lemmas -/

/-- When validation passes, the sides are returned exactly as the service
sent them and notes is the string itself or its str-coercion. -/
theorem validateResponse_ok (pyStr : JVal → String) (data : JObj)
    (r : PyDetectResult) (h : validateResponse pyStr data = .ok r) :
    r.L = pyGet data "L" ∧ r.R = pyGet data "R" ∧
    r.notes = (match pyGetD data "notes" (.str "") with
               | .str s => s
               | v => pyStr v) := by
  unfold validateResponse at h
  by_cases h1 : (!(pyGet data "L").isNull && !pySideOk (pyGet data "L")) = true
  · simp only [h1, if_true] at h; exact absurd h (by simp)
  · by_cases h2 : (!(pyGet data "R").isNull && !pySideOk (pyGet data "R")) = true
    · simp only [h1, h2, if_false, if_true] at h; exact absurd h (by simp)
    · simp only [h1, h2, if_false] at h
      obtain rfl := Except.ok.inj h
      exact ⟨rfl, rfl, rfl⟩

/-- Validation raises exactly when some present (non-null) side fails the
code's shape check. -/
theorem validateResponse_error_iff (pyStr : JVal → String) (data : JObj) :
    (∃ key, validateResponse pyStr data = .error key) ↔
      ((pyGet data "L").isNull = false ∧ pySideOk (pyGet data "L") = false) ∨
      ((pyGet data "R").isNull = false ∧ pySideOk (pyGet data "R") = false) := by
  unfold validateResponse
  by_cases h1 : (!(pyGet data "L").isNull && !pySideOk (pyGet data "L")) = true
  · simp only [h1, if_true]
    simp only [Bool.and_eq_true, Bool.not_eq_true'] at h1
    simp [h1]
  · by_cases h2 : (!(pyGet data "R").isNull && !pySideOk (pyGet data "R")) = true
    · simp only [h1, h2, if_false, if_true]
      simp only [Bool.and_eq_true, Bool.not_eq_true'] at h2
      simp [h2]
    · simp only [h1, h2, if_false]
      simp only [Bool.and_eq_true, Bool.not_eq_true', not_and] at h1 h2
      constructor
      · rintro ⟨key, hk⟩; exact absurd hk (by simp)
      · rintro (⟨ha, hb⟩ | ⟨ha, hb⟩)
        · exact absurd hb (by simpa [ha] using h1)
        · exact absurd hb (by simpa [ha] using h2)

/-- C4 (amended): the validator raises a fatal error iff some present
(non-null) side fails the code's check — being a 2-element list whose
elements Python counts as ints, which admits booleans because Python bool is
a subclass of int (not "a 2-element list of integers" exactly); when
validation passes, each present side is returned exactly as the service sent
it, and notes is the text itself or, for a non-text value, its str-coercion. -/
theorem C4_validation :
    (∀ (pyStr : JVal → String) (data : JObj),
      (∃ key, validateResponse pyStr data = .error key) ↔
        ((pyGet data "L").isNull = false ∧ pySideOk (pyGet data "L") = false) ∨
        ((pyGet data "R").isNull = false ∧ pySideOk (pyGet data "R") = false)) ∧
    (∀ (pyStr : JVal → String) (data : JObj) (r : PyDetectResult),
      validateResponse pyStr data = .ok r →
        r.L = pyGet data "L" ∧ r.R = pyGet data "R" ∧
        r.notes = (match pyGetD data "notes" (.str "") with
                   | .str s => s
                   | v => pyStr v)) ∧
    (∀ v : JVal, pySideOk v = true ↔
      ∃ x y, v = .arr [x, y] ∧ x.isinstanceInt = true ∧ y.isinstanceInt = true) := by
  refine ⟨validateResponse_error_iff, validateResponse_ok, fun v => ?_⟩
  cases v with
  | arr xs =>
      match xs with
      | [] => simp [pySideOk]
      | [x] => simp [pySideOk]
      | [x, y] =>
          simp [pySideOk, List.all]
          exact ⟨fun h => ⟨x, y, ⟨rfl, rfl⟩, h.1, h.2⟩,
            by rintro ⟨x1, y1, ⟨rfl, rfl⟩, hx, hy⟩; exact ⟨hx, hy⟩⟩
      | x :: y :: z :: rest => simp [pySideOk]
  | null => simp [pySideOk]
  | bool b => simp [pySideOk]
  | int n => simp [pySideOk]
  | float q => simp [pySideOk]
  | str s => simp [pySideOk]
  | obj fields => simp [pySideOk]

/-- C4 counterexample: the response `{"L": [true, true], "R": null, "notes":
"ok"}` has a present side that is not a 2-element list of integers (it is a
list of booleans), yet the validator accepts it unchanged, because Python's
`isinstance(v, int)` is true for booleans.  So "raises iff some present side
is not exactly a 2-element list of integers" is false at this input. -/
theorem C4_counterexample :
    validateResponse (fun _ => "")
        [("L", .arr [.bool true, .bool true]), ("R", .null),
         ("notes", .str "ok")] =
      .ok ⟨.arr [.bool true, .bool true], .null, "ok"⟩ ∧
    specIntRangeShape (.arr [.bool true, .bool true]) = false ∧
    (pyGet [("L", .arr [.bool true, .bool true]), ("R", .null),
            ("notes", .str "ok")] "L").isNull = false :=
  ⟨rfl, rfl, rfl⟩

/-- C5: the validator enforces no `start ≤ end` ordering: a 2-integer side
with start > end is accepted and enters the result unchanged; consequently a
successfully validated result's sides satisfy the ordering exactly when the
service's own values did. -/
theorem C5_trusts_ordering :
    (∀ (pyStr : JVal → String) (a b : Int) (notes : String), b < a →
      validateResponse pyStr
          [("L", .arr [.int a, .int b]), ("R", .null), ("notes", .str notes)] =
        .ok ⟨.arr [.int a, .int b], .null, notes⟩) ∧
    (∀ (pyStr : JVal → String) (data : JObj) (r : PyDetectResult),
      validateResponse pyStr data = .ok r →
        sideOrdered r.L = sideOrdered (pyGet data "L") ∧
        sideOrdered r.R = sideOrdered (pyGet data "R")) := by
  refine ⟨fun pyStr a b notes _ => rfl, fun pyStr data r h => ?_⟩
  obtain ⟨hL, hR, _⟩ := validateResponse_ok pyStr data r h
  rw [hL, hR]
  exact ⟨rfl, rfl⟩

/-- C10: when the parsed response lacks the "L" (resp. "R") key entirely, the
client treats that side as absent (`data.get` returns None) rather than
raising, and a missing "notes" key yields the empty string — even though
`RESPONSE_SCHEMA` declares all three fields required. -/
theorem C10_missing_keys :
    (∀ (pyStr : JVal → String) (data : JObj),
      data.lookup "L" = none →
        pyGet data "L" = .null ∧ validateResponse pyStr data ≠ .error "L") ∧
    (∀ (pyStr : JVal → String) (data : JObj),
      data.lookup "R" = none →
        pyGet data "R" = .null ∧ validateResponse pyStr data ≠ .error "R") ∧
    (∀ (pyStr : JVal → String) (data : JObj),
      data.lookup "L" = none → data.lookup "R" = none →
      data.lookup "notes" = none →
      validateResponse pyStr data = .ok ⟨.null, .null, ""⟩) ∧
    ("L" ∈ responseSchemaRequired ∧ "R" ∈ responseSchemaRequired ∧
      "notes" ∈ responseSchemaRequired) := by
  refine ⟨fun pyStr data h => ?_, fun pyStr data h => ?_,
    fun pyStr data h1 h2 h3 => ?_, by decide, by decide, by decide⟩
  · have hL : pyGet data "L" = .null := by simp [pyGet, h]
    refine ⟨hL, ?_⟩
    unfold validateResponse
    rw [hL]
    dsimp only
    split <;> try split
    all_goals simp_all [JVal.isNull]
  · have hR : pyGet data "R" = .null := by simp [pyGet, h]
    refine ⟨hR, ?_⟩
    unfold validateResponse
    rw [hR]
    dsimp only
    split <;> try split
    all_goals simp_all [JVal.isNull]
  · unfold validateResponse
    simp [pyGet, pyGetD, h1, h2, h3, JVal.isNull]

/-- C9 (amended): the client attempts the best-effort `files.delete` iff the
poll reached ACTIVE and the inference request ultimately succeeded; when the
retry loop re-raises, the exception propagates and no deletion is attempted.
When deletion is attempted, its own failure is swallowed: the function's
result and the rest of its log do not depend on the delete outcome. -/
theorem C9_delete_only_on_success :
    (∀ (pyStr : JVal → String) (env : DetectEnv),
      (detectBrushEvents pyStr env).2.deleteAttempted = some env.deleteFails ↔
        (pollLoop env.states).1 = .ready ∧
          exceptIsOk (retryLoop env.calls).1 = true) ∧
    (∀ (pyStr : JVal → String) (env : DetectEnv),
      (detectBrushEvents pyStr env).2.deleteAttempted = none ↔
        ¬((pollLoop env.states).1 = .ready ∧
            exceptIsOk (retryLoop env.calls).1 = true)) ∧
    (∀ (pyStr : JVal → String) (env : DetectEnv) (b1 b2 : Bool),
      (detectBrushEvents pyStr { env with deleteFails := b1 }).1 =
        (detectBrushEvents pyStr { env with deleteFails := b2 }).1 ∧
      (detectBrushEvents pyStr { env with deleteFails := b1 }).2.pollElapsed =
        (detectBrushEvents pyStr { env with deleteFails := b2 }).2.pollElapsed ∧
      (detectBrushEvents pyStr { env with deleteFails := b1 }).2.retrySleep =
        (detectBrushEvents pyStr { env with deleteFails := b2 }).2.retrySleep ∧
      (detectBrushEvents pyStr { env with deleteFails := b1 }).2.attempts =
        (detectBrushEvents pyStr { env with deleteFails := b2 }).2.attempts) := by
  refine ⟨fun pyStr env => ?_, fun pyStr env => ?_, fun pyStr env b1 b2 => ?_⟩
  · unfold detectBrushEvents
    cases hp : (pollLoop env.states).1 <;> simp [hp]
    cases hr : (retryLoop env.calls).1 with
    | error m => simp [hr, exceptIsOk]
    | ok body =>
        cases body with
        | none => simp [hr, exceptIsOk]
        | some data =>
            cases hv : validateResponse pyStr data <;> simp [hr, hv, exceptIsOk]
  · unfold detectBrushEvents
    cases hp : (pollLoop env.states).1 <;> simp [hp]
    cases hr : (retryLoop env.calls).1 with
    | error m => simp [hr, exceptIsOk]
    | ok body =>
        cases body with
        | none => simp [hr, exceptIsOk]
        | some data =>
            cases hv : validateResponse pyStr data <;> simp [hr, hv, exceptIsOk]
  · unfold detectBrushEvents
    cases hp : (pollLoop env.states).1 <;> simp [hp]
    cases hr : (retryLoop env.calls).1 with
    | error m => simp [hr]
    | ok body =>
        cases body with
        | none => simp [hr]
        | some data =>
            cases hv : validateResponse pyStr data <;> simp [hr, hv]

/-- C9 counterexample: with the upload immediately ACTIVE and a non-transient
inference failure, `_detect_brush_events` raises and the `files.delete`
cleanup is never attempted — so "after the inference request resolves,
whether it succeeded or failed, the client attempts to delete the uploaded
asset" is false at this input. -/
theorem C9_counterexample :
    exceptIsOk (detectBrushEvents (fun _ => "")
        ⟨fun _ => .active, fun _ => .err "boom", false⟩).1 = false ∧
    (detectBrushEvents (fun _ => "")
        ⟨fun _ => .active, fun _ => .err "boom", false⟩).2.deleteAttempted =
      none := by
  have hp : pollLoop (fun _ => FileState.active) = (.ready, 0) := by
    have h := pollFrom_active (fun _ => FileState.active) 0 rfl
    simpa [pollLoop] using h
  have hnr : isRetryable "boom" = false := by decide
  have hr : retryLoop (fun _ => CallOutcome.err "boom") =
      (.error "boom", 0, 1) := by
    rw [retryLoop, retryFrom_fatal _ 5 0 _ rfl (by simp [hnr])]
  constructor <;> simp [detectBrushEvents, hp, hr, exceptIsOk]

/-! ### Per-video pipeline lemmas -/

/-- The `finally` block always leaves both intermediates deleted and touches
nothing else. -/
theorem cleanupIntermediates_clears (fs : JobFS) (tr : List JobEv) :
    (cleanupIntermediates fs tr).1.tmp1fps = false ∧
    (cleanupIntermediates fs tr).1.labeled = false ∧
    (cleanupIntermediates fs tr).1.source = fs.source ∧
    (cleanupIntermediates fs tr).1.vis = fs.vis ∧
    (cleanupIntermediates fs tr).1.resultJson = fs.resultJson := by
  unfold cleanupIntermediates
  cases h1 : fs.tmp1fps <;> cases h2 : fs.labeled <;> simp [h1, h2]

/-- The `finally` block only appends unlink events to the trace. -/
theorem cleanupIntermediates_mem (fs : JobFS) (tr : List JobEv) (e : JobEv)
    (h1 : e ≠ JobEv.unlinkTmp) (h2 : e ≠ JobEv.unlinkLabeled) :
    e ∈ (cleanupIntermediates fs tr).2 ↔ e ∈ tr := by
  unfold cleanupIntermediates
  cases hb1 : fs.tmp1fps <;> cases hb2 : fs.labeled <;>
    simp [hb1, hb2, h1, h2]

/-- The `try` body never touches the source video slot. -/
theorem processVideoBody_source (env : JobEnv) (visualize : Bool)
    (name : String) (fs0 : JobFS) :
    (processVideoBody env visualize name fs0).2.1.source = fs0.source := by
  rcases env with ⟨p, o, c, l, d, v⟩
  cases p <;> cases o <;>
    rcases c with _ | cw <;> rcases l with _ | lw <;>
    rcases d with m | r <;> cases visualize <;> rcases v with _ | vw <;>
    simp [processVideoBody]

/-- On the fast path (`orig_fps == 1.0`) the body never invokes `_make_1fps`
and never creates the normalized intermediate. -/
theorem processVideoBody_fastpath (env : JobEnv) (visualize : Bool)
    (name : String) (fs0 : JobFS) (h : env.origFpsIs1 = true) :
    JobEv.convert1fps ∉ (processVideoBody env visualize name fs0).2.2 ∧
    (processVideoBody env visualize name fs0).2.1.tmp1fps = fs0.tmp1fps := by
  rcases env with ⟨p, o, c, l, d, v⟩
  simp only at h
  subst h
  cases p <;>
    rcases l with _ | lw <;>
    rcases d with m | r <;> cases visualize <;> rcases v with _ | vw <;>
    simp [processVideoBody]

/-- C7: on every exit path of a job — success or an exception at any stage —
neither the normalized-rate intermediate nor the labeled intermediate remains
on the filesystem, the original source video is never deleted, and on the
1-fps fast path the normalized intermediate is never even created. -/
theorem C7_cleanup_invariant :
    ∀ (env : JobEnv) (visualize : Bool) (name : String) (fs0 : JobFS),
      (processVideo env visualize name fs0).2.1.tmp1fps = false ∧
      (processVideo env visualize name fs0).2.1.labeled = false ∧
      (processVideo env visualize name fs0).2.1.source = fs0.source ∧
      (env.origFpsIs1 = true →
        JobEv.convert1fps ∉ (processVideo env visualize name fs0).2.2 ∧
        (processVideoBody env visualize name fs0).2.1.tmp1fps = fs0.tmp1fps) := by
  intro env visualize name fs0
  have hc := cleanupIntermediates_clears
    (processVideoBody env visualize name fs0).2.1
    (processVideoBody env visualize name fs0).2.2
  have hs := processVideoBody_source env visualize name fs0
  refine ⟨hc.1, hc.2.1, ?_, fun hfast => ?_⟩
  · exact hc.2.2.1.trans hs
  · have hfp := processVideoBody_fastpath env visualize name fs0 hfast
    refine ⟨fun hmem => hfp.1 ?_, hfp.2⟩
    exact (cleanupIntermediates_mem
      (processVideoBody env visualize name fs0).2.1
      (processVideoBody env visualize name fs0).2.2
      JobEv.convert1fps (by decide) (by decide)).1 hmem

/-- C6: whenever detection succeeds, `result.json` is written before any
visualization attempt begins, and it still holds the detected content in the
job's final filesystem no matter how the visualization step ends. -/
theorem C6_persist_before_visualize :
    ∀ (env : JobEnv) (visualize : Bool) (name : String) (r : PyDetectResult),
      env.probeOk = true → (env.origFpsIs1 = true ∨ env.conv = .ok) →
      env.labelStep = .ok → env.detect = .ok r →
      (processVideo env visualize name initFS).2.1.resultJson = some (r, name) ∧
      JobEv.writeResult ∈ (processVideo env visualize name initFS).2.2 ∧
      JobEv.writeResult ∈ ((processVideo env visualize name initFS).2.2.takeWhile
        (fun e => e != JobEv.visualizeCall)) := by
  intro env visualize name r hp ho hl hd
  rcases env with ⟨p, o, c, l, d, v⟩
  simp only at hp hl hd
  subst hp
  subst hl
  subst hd
  rcases ho with ho | ho
  · simp only at ho
    subst ho
    cases visualize <;> rcases v with _ | vw <;>
      simp [processVideo, processVideoBody, cleanupIntermediates, initFS]
  · simp only at ho
    subst ho
    cases o <;> cases visualize <;> rcases v with _ | vw <;>
      simp [processVideo, processVideoBody, cleanupIntermediates, initFS]

/-- C6 witness: a concrete job whose visualization render fails after
`result.json` was written: the artifact survives with the detected content. -/
theorem C6_witness :
    (processVideo demoVisFailEnv true "v.mp4" initFS).2.1.resultJson =
      some (demoResult, "v.mp4") ∧
    JobEv.writeResult ∈ (processVideo demoVisFailEnv true "v.mp4" initFS).2.2 ∧
    JobEv.writeResult ∈
      ((processVideo demoVisFailEnv true "v.mp4" initFS).2.2.takeWhile
        (fun e => e != JobEv.visualizeCall)) :=
  C6_persist_before_visualize demoVisFailEnv true "v.mp4" demoResult rfl
    (.inr rfl) rfl rfl

/-! ### Batch lemmas -/

/-- The error-collecting loop of `main` is the filterMap of the per-job
outcomes: a failing job contributes `name: message` and the loop continues. -/
theorem collectErrors_eq_filterMap (visualize : Bool) (vs : List VideoSpec) :
    collectErrors visualize vs = vs.filterMap (fun v =>
      match (runJob visualize v).1 with
      | .error m => some (v.name ++ ": " ++ m)
      | .ok _ => none) := by
  induction vs with
  | nil => rfl
  | cons v rest ih =>
      cases h : (runJob visualize v).1 <;>
        simp [collectErrors, h, ih]

/-- C8: one failing job never aborts or skips the rest — every video's job is
run to a terminal state and reported — and the summary counts
`succeeded = total - number of failures` with an itemized error entry for
exactly the jobs that raised.  In the concrete 5-video batch where only video
#3 fails at the Detect stage: succeeded = 4, the error list is exactly
video #3's entry, and `result.json` exists for exactly the other 4. -/
theorem C8_batch_isolation :
    (∀ (visualize : Bool) (vs : List VideoSpec),
      (runBatch visualize vs).1.total = vs.length ∧
      (runBatch visualize vs).1.succeeded =
        vs.length - (runBatch visualize vs).1.errors.length ∧
      (runBatch visualize vs).1.errors = vs.filterMap (fun v =>
        match (runJob visualize v).1 with
        | .error m => some (v.name ++ ": " ++ m)
        | .ok _ => none) ∧
      (runBatch visualize vs).2 =
        vs.map (fun v => (v.name, (runJob visualize v).2.1))) ∧
    ((runBatch false demoBatch).1.succeeded = 4 ∧
     (runBatch false demoBatch).1.errors = ["v3.mp4: detect boom"] ∧
     (runBatch false demoBatch).2.map (fun p => p.2.resultJson.isSome) =
       [true, true, false, true, true]) := by
  refine ⟨fun visualize vs => ⟨rfl, rfl, ?_, rfl⟩, ?_, ?_, ?_⟩
  · exact collectErrors_eq_filterMap visualize vs
  · rfl
  · rfl
  · rfl

end MouseBrush
